import Mathlib

/-!
Verification of the drone motor-control core (`drone_motor_control.c`).

Modelling conventions:
* `float`/`double` values are modelled as `Option ℚ`: `some q` is the finite
  value `q`, `none` is NaN.  Rounding is idealized away (exact rational
  arithmetic); infinities are not modelled and a division by zero is mapped
  to NaN.  Comparisons involving NaN are `false`, matching C semantics, and
  arithmetic propagates NaN.
* The transcendental libm functions (`sinf`, `cosf`, `sqrtf`, `atan2f`) used
  by the control pipeline are an oracle parameter (`LibM`), so every theorem
  about the pipeline holds for an arbitrary finite-valued implementation of
  them.  The geodesy claims about `get_distance_meters` itself are settled
  against a real-valued embedding (namespace `Haversine`) using the exact
  trigonometric functions.
* `uint16_t` fields are `ℕ`; C's modular conversion to `uint16_t` is `% 65536`.
  C leaves out-of-range or NaN float→integer conversions undefined; following
  the ARMv7 `VCVT` behavior of the target (STM32H7), the model saturates and
  maps NaN to 0.  All claims proved below are insensitive to this choice.
-/

-- The library marks the rational operations irreducible; re-allow their
-- definitional unfolding in this file so that concrete program states can be
-- evaluated by `decide`.
attribute [local semireducible] Rat.add Rat.sub Rat.mul Rat.inv Rat.ofScientific

/-- A C `float`/`double` value: `some q` is a finite value, `none` is NaN. -/
abbrev F := Option ℚ

def fadd : F → F → F
  | some a, some b => some (a + b)
  | _, _ => none

def fsub : F → F → F
  | some a, some b => some (a - b)
  | _, _ => none

def fmul : F → F → F
  | some a, some b => some (a * b)
  | _, _ => none

/-- Float division; division by zero is mapped to NaN (the callers below
    guarantee a nonzero divisor, per the spec's `dt > 0` contract). -/
def fdiv : F → F → F
  | some a, some b => if b = 0 then none else some (a / b)
  | _, _ => none

def fneg : F → F
  | some a => some (-a)
  | none => none

/-- The libm `fabsf`: absolute value, NaN-propagating. -/
def fabsf : F → F
  | some a => some |a|
  | none => none

/-- C `<` on floats: any comparison involving NaN is false. -/
def flt : F → F → Bool
  | some a, some b => decide (a < b)
  | _, _ => false

/-- C `>` on floats: any comparison involving NaN is false. -/
def fgt : F → F → Bool
  | some a, some b => decide (b < a)
  | _, _ => false

/-- The `isnan` predicate from `math.h`. -/
def isnanF (x : F) : Bool := x.isNone

/-- Truncation toward zero, the C float→integer conversion for in-range values. -/
def ratTrunc (q : ℚ) : ℤ := if 0 ≤ q then ⌊q⌋ else ⌈q⌉

/-- Conversion of a float to `uint16_t`.  C leaves NaN/out-of-range undefined;
    we adopt the target's saturating conversion (NaN→0). -/
def f_to_u16 : F → ℕ
  | none => 0
  | some q => if q ≤ 0 then 0 else min (ratTrunc q).toNat 65535

/-- Conversion of a float to `int16_t`, saturating as above. -/
def f_to_i16 : F → ℤ
  | none => 0
  | some q => max (-32768) (min (ratTrunc q) 32767)

/-- Implicit conversion of a `uint16_t` to float (always exact). -/
def u16_to_f (n : ℕ) : F := some (n : ℚ)

-- Constants from the source header.
def MOTOR_MIN : ℚ := 1000
def MOTOR_MAX : ℚ := 2000
def LOOP_FREQ : ℚ := 400
/-- The loop period `DT = 1.0f / LOOP_FREQ`. -/
def DT : F := some (1 / LOOP_FREQ)
/-- The value of the `M_PI` double constant (0x400921FB54442D18). -/
def M_PI : ℚ := 884279719003555 / 281474976710656
def MAX_TILT_ANGLE : ℚ := 45
def RTH_ALTITUDE : ℚ := 20
def OBSTACLE_DISTANCE : ℚ := 2

def MODE_MANUAL : ℕ := 0
def MODE_STABILIZE : ℕ := 1
def MODE_ALTITUDE_HOLD : ℕ := 2
def MODE_POSITION_HOLD : ℕ := 3
def MODE_AUTO : ℕ := 4
def MODE_RTH : ℕ := 5

-- Data structures from the source.

structure Vector3f where
  x : F
  y : F
  z : F
deriving DecidableEq

structure Euler where
  roll : F
  pitch : F
  yaw : F
deriving DecidableEq

structure GPSPosition where
  lat : F
  lon : F
  alt : F
deriving DecidableEq

structure PID where
  kp : F
  ki : F
  kd : F
  error : F
  prev_error : F
  integral : F
  output : F
  max_integral : F
deriving DecidableEq

structure MotorOutputs where
  m1 : ℕ
  m2 : ℕ
  m3 : ℕ
  m4 : ℕ
  m5 : ℕ
  m6 : ℕ
  m7 : ℕ
  m8 : ℕ
deriving DecidableEq

structure IMUData where
  gyro : Vector3f
  accel : Vector3f
  angles : Euler
  temperature : F
  timestamp : ℕ
deriving DecidableEq

structure GPSData where
  position : GPSPosition
  ground_speed : F
  heading : F
  num_sats : ℕ
  fix_valid : Bool
deriving DecidableEq

structure BaroData where
  altitude : F
  vertical_speed : F
  pressure : F
deriving DecidableEq

structure ObstacleData where
  distance : F
  angle : F
  detected : Bool
deriving DecidableEq

structure FlightCommand where
  throttle : ℕ
  setpoint : Euler
  armed : Bool
  flight_mode : ℕ
  target_altitude : F
  target_position : GPSPosition
  home_position : GPSPosition
deriving DecidableEq

/-- The global mutable state of the program: all `static` variables the
    control pipeline reads or writes. -/
structure SysState where
  imu : IMUData
  gps : GPSData
  baro : BaroData
  obstacle : ObstacleData
  cmd : FlightCommand
  motors : MotorOutputs
  pid_roll : PID
  pid_pitch : PID
  pid_yaw : PID
  pid_altitude : PID
  pid_velocity_z : PID
  pid_pos_n : PID
  pid_pos_e : PID
  pid_vel_n : PID
  pid_vel_e : PID
deriving DecidableEq

/-- Oracle for the transcendental libm functions used by the pipeline
    (their finite-valued behavior; arguments and results in ℚ). -/
structure LibM where
  sinf : ℚ → ℚ
  cosf : ℚ → ℚ
  sqrtf : ℚ → ℚ
  atan2f : ℚ → ℚ → ℚ

def lsin (o : LibM) : F → F := Option.map o.sinf
def lcos (o : LibM) : F → F := Option.map o.cosf
def lsqrt (o : LibM) : F → F := Option.map o.sqrtf
def latan2 (o : LibM) : F → F → F
  | some y, some x => some (o.atan2f y x)
  | _, _ => none

/-- Embedding of `constrain_float` from the source:
    `(val < min) ? min : (val > max) ? max : val`. -/
def constrain_float (val mn mx : F) : F :=
  if flt val mn then mn else if fgt val mx then mx else val

/-- Embedding of `init_pid` from the source. -/
def init_pid (kp ki kd max_int : F) : PID :=
  { kp := kp, ki := ki, kd := kd, error := some 0, prev_error := some 0,
    integral := some 0, output := some 0, max_integral := max_int }

/-- Embedding of `update_pid` from the source.  C mutates `*pid` and returns
    `pid->output`; the model returns the updated record, whose `output`
    field is the C return value. -/
def update_pid (pid : PID) (setpoint measured dt : F) : PID :=
  let error := fsub setpoint measured
  let integral := fadd pid.integral (fmul error dt)
  let integral := constrain_float integral (fneg pid.max_integral) pid.max_integral
  let derivative := fdiv (fsub error pid.prev_error) dt
  let output := fadd (fadd (fmul pid.kp error) (fmul pid.ki integral)) (fmul pid.kd derivative)
  { pid with error := error, integral := integral, prev_error := error, output := output }

/-- Embedding of `stabilize_and_mix` from the source. -/
def stabilize_and_mix (s : SysState) : SysState :=
  if s.cmd.armed = false then
    { s with motors := ⟨1000, 1000, 1000, 1000, 1000, 1000, 1000, 1000⟩ }
  else
    let pid_roll := update_pid s.pid_roll s.cmd.setpoint.roll s.imu.angles.roll DT
    let roll_correction := pid_roll.output
    let pid_pitch := update_pid s.pid_pitch s.cmd.setpoint.pitch s.imu.angles.pitch DT
    let pitch_correction := pid_pitch.output
    let pid_yaw := update_pid s.pid_yaw s.cmd.setpoint.yaw s.imu.angles.yaw DT
    let yaw_correction := pid_yaw.output
    let base := u16_to_f s.cmd.throttle
    let m1 := f_to_u16 (fsub (fadd (fsub base roll_correction) pitch_correction) yaw_correction)
    let m2 := f_to_u16 (fadd (fadd (fadd base roll_correction) pitch_correction) yaw_correction)
    let m3 := f_to_u16 (fadd (fsub (fsub base roll_correction) pitch_correction) yaw_correction)
    let m4 := f_to_u16 (fsub (fsub (fadd base roll_correction) pitch_correction) yaw_correction)
    let m1 := f_to_u16 (constrain_float (u16_to_f m1) (some MOTOR_MIN) (some MOTOR_MAX))
    let m2 := f_to_u16 (constrain_float (u16_to_f m2) (some MOTOR_MIN) (some MOTOR_MAX))
    let m3 := f_to_u16 (constrain_float (u16_to_f m3) (some MOTOR_MIN) (some MOTOR_MAX))
    let m4 := f_to_u16 (constrain_float (u16_to_f m4) (some MOTOR_MIN) (some MOTOR_MAX))
    { s with pid_roll := pid_roll, pid_pitch := pid_pitch, pid_yaw := pid_yaw,
             motors := { s.motors with m1 := m1, m2 := m2, m3 := m3, m4 := m4 } }

/-- Embedding of `altitude_hold_controller` from the source.  The source also computes a
    local `altitude_error` that is never used; it is omitted.  Note the C
    intermediate `cmd.throttle = 1500 + (int16_t)throttle_adjust` stores
    into the `uint16_t` field (modular conversion) before the clamp. -/
def altitude_hold_controller (s : SysState) : SysState :=
  if s.cmd.flight_mode < MODE_ALTITUDE_HOLD then s else
    let pid_altitude := update_pid s.pid_altitude s.cmd.target_altitude s.baro.altitude DT
    let target_climb_rate := pid_altitude.output
    let target_climb_rate := constrain_float target_climb_rate (some (-3)) (some 3)
    let pid_velocity_z := update_pid s.pid_velocity_z target_climb_rate s.baro.vertical_speed DT
    let throttle_adjust := pid_velocity_z.output
    let throttle : ℕ := (((1500 : ℤ) + f_to_i16 throttle_adjust) % 65536).toNat
    let throttle := f_to_u16 (constrain_float (u16_to_f throttle) (some MOTOR_MIN) (some MOTOR_MAX))
    { s with pid_altitude := pid_altitude, pid_velocity_z := pid_velocity_z,
             cmd := { s.cmd with throttle := throttle } }

/-- The `while`-loop `wrap_360` from the source.  For a finite input the loop
    terminates and returns the representative in `[0, 360)`, which is the
    closed form below; for NaN both loop conditions are false and the input
    is returned unchanged. -/
def wrap_360 : F → F
  | none => none
  | some q => some (q - 360 * ⌊q / 360⌋)

/-- Embedding of `get_distance_meters` from the source (oracle trigonometry; products are
    grouped left-associatively as in C). -/
def get_distance_meters (o : LibM) (pos1 pos2 : GPSPosition) : F :=
  let dlat := fdiv (fmul (fsub pos2.lat pos1.lat) (some M_PI)) (some 180)
  let dlon := fdiv (fmul (fsub pos2.lon pos1.lon) (some M_PI)) (some 180)
  let a := fadd (fmul (lsin o (fdiv dlat (some 2))) (lsin o (fdiv dlat (some 2))))
               (fmul (fmul (fmul (lcos o (fdiv (fmul pos1.lat (some M_PI)) (some 180)))
                                 (lcos o (fdiv (fmul pos2.lat (some M_PI)) (some 180))))
                           (lsin o (fdiv dlon (some 2))))
                     (lsin o (fdiv dlon (some 2))))
  let c := fmul (some 2) (latan2 o (lsqrt o a) (lsqrt o (fsub (some 1) a)))
  fmul (some 6371000) c

/-- Embedding of `get_bearing_deg` from the source.  The local `dlat` computed by the
    source is never used and is omitted. -/
def get_bearing_deg (o : LibM) (frm pto : GPSPosition) : F :=
  let dlon := fdiv (fmul (fsub pto.lon frm.lon) (some M_PI)) (some 180)
  let y := fmul (lsin o dlon) (lcos o (fdiv (fmul pto.lat (some M_PI)) (some 180)))
  let x := fsub (fmul (lcos o (fdiv (fmul frm.lat (some M_PI)) (some 180)))
                      (lsin o (fdiv (fmul pto.lat (some M_PI)) (some 180))))
               (fmul (fmul (lsin o (fdiv (fmul frm.lat (some M_PI)) (some 180)))
                           (lcos o (fdiv (fmul pto.lat (some M_PI)) (some 180))))
                     (lcos o dlon))
  wrap_360 (fdiv (fmul (latan2 o y x) (some 180)) (some M_PI))

/-- Embedding of `position_hold_controller` from the source. -/
def position_hold_controller (o : LibM) (s : SysState) : SysState :=
  if s.cmd.flight_mode < MODE_POSITION_HOLD ∨ s.gps.fix_valid = false then s else
    let distance := get_distance_meters o s.gps.position s.cmd.target_position
    let bearing := get_bearing_deg o s.gps.position s.cmd.target_position
    let error_north := fmul distance (lcos o (fdiv (fmul bearing (some M_PI)) (some 180)))
    let error_east := fmul distance (lsin o (fdiv (fmul bearing (some M_PI)) (some 180)))
    let pid_pos_n := update_pid s.pid_pos_n (some 0) error_north DT
    let target_vel_n := pid_pos_n.output
    let pid_pos_e := update_pid s.pid_pos_e (some 0) error_east DT
    let target_vel_e := pid_pos_e.output
    let target_vel_n := constrain_float target_vel_n (some (-5)) (some 5)
    let target_vel_e := constrain_float target_vel_e (some (-5)) (some 5)
    let vel_n := fmul s.gps.ground_speed (lcos o (fdiv (fmul s.gps.heading (some M_PI)) (some 180)))
    let vel_e := fmul s.gps.ground_speed (lsin o (fdiv (fmul s.gps.heading (some M_PI)) (some 180)))
    let pid_vel_n := update_pid s.pid_vel_n target_vel_n vel_n DT
    let angle_n := pid_vel_n.output
    let pid_vel_e := update_pid s.pid_vel_e target_vel_e vel_e DT
    let angle_e := pid_vel_e.output
    let heading_rad := fdiv (fmul s.imu.angles.yaw (some M_PI)) (some 180)
    let sp_pitch := fneg (fadd (fmul angle_n (lcos o heading_rad)) (fmul angle_e (lsin o heading_rad)))
    let sp_roll := fneg (fsub (fmul angle_e (lcos o heading_rad)) (fmul angle_n (lsin o heading_rad)))
    let sp_pitch := constrain_float sp_pitch (some (-25)) (some 25)
    let sp_roll := constrain_float sp_roll (some (-25)) (some 25)
    { s with pid_pos_n := pid_pos_n, pid_pos_e := pid_pos_e,
             pid_vel_n := pid_vel_n, pid_vel_e := pid_vel_e,
             cmd := { s.cmd with setpoint := { s.cmd.setpoint with pitch := sp_pitch, roll := sp_roll } } }

/-- Embedding of `return_to_home_controller` from the source. -/
def return_to_home_controller (o : LibM) (s : SysState) : SysState :=
  if s.cmd.flight_mode ≠ MODE_RTH ∨ s.gps.fix_valid = false then s else
    let distance := get_distance_meters o s.gps.position s.cmd.home_position
    if flt distance (some 2) && flt s.baro.altitude (some 1) then
      { s with cmd := { s.cmd with armed := false } }
    else
      let s := if flt s.baro.altitude (some RTH_ALTITUDE) then
                 { s with cmd := { s.cmd with target_altitude := some RTH_ALTITUDE } }
               else s
      let s := { s with cmd := { s.cmd with target_position := s.cmd.home_position } }
      let s := position_hold_controller o s
      if flt distance (some 3) then
        { s with cmd := { s.cmd with target_altitude := some (1/2) } }
      else s

/-- Embedding of `obstacle_avoidance` from the source. -/
def obstacle_avoidance (o : LibM) (s : SysState) : SysState :=
  if s.obstacle.detected = false then s else
    if flt s.obstacle.distance (some OBSTACLE_DISTANCE) then
      let s := if flt s.cmd.setpoint.pitch (some 0) then
                 { s with cmd := { s.cmd with setpoint := { s.cmd.setpoint with pitch := some 0 } } }
               else s
      let avoidance_angle := fadd s.obstacle.angle (some 90)
      let roll := fmul (some 10) (lsin o (fdiv (fmul avoidance_angle (some M_PI)) (some 180)))
      { s with cmd := { s.cmd with setpoint := { s.cmd.setpoint with roll := roll } } }
    else s

/-- Embedding of `safety_check` from the source.  The final `palWritePad` drives the
    arming LED and does not change program state. -/
def safety_check (s : SysState) : SysState :=
  let armed := if fgt (fabsf s.imu.angles.roll) (some MAX_TILT_ANGLE)
                  || fgt (fabsf s.imu.angles.pitch) (some MAX_TILT_ANGLE) then false
               else s.cmd.armed
  let armed := if isnanF s.imu.angles.roll || isnanF s.imu.angles.pitch then false
               else armed
  let mode := if MODE_POSITION_HOLD ≤ s.cmd.flight_mode ∧ s.gps.fix_valid = false then
                MODE_ALTITUDE_HOLD
              else s.cmd.flight_mode
  { s with cmd := { s.cmd with armed := armed, flight_mode := mode } }

/-- The six assembled `int16_t` IMU samples of one tick (the SPI byte
    traffic of `read_imu_data` is summarized by the samples it assembles). -/
structure ImuRaw where
  ax : ℤ
  ay : ℤ
  az : ℤ
  gx : ℤ
  gy : ℤ
  gz : ℤ

def ACCEL_SCALE : ℚ := 16384
def GYRO_SCALE : ℚ := 131

/-- Embedding of `read_imu_data` from the source (scaling of the raw samples). -/
def read_imu_data (s : SysState) (r : ImuRaw) : SysState :=
  { s with imu := { s.imu with
      accel := ⟨some ((r.ax : ℚ) / ACCEL_SCALE), some ((r.ay : ℚ) / ACCEL_SCALE),
                some ((r.az : ℚ) / ACCEL_SCALE)⟩,
      gyro := ⟨some ((r.gx : ℚ) / GYRO_SCALE), some ((r.gy : ℚ) / GYRO_SCALE),
               some ((r.gz : ℚ) / GYRO_SCALE)⟩ } }

/-- Embedding of `compute_angles` from the source (complementary filter, `alpha = 0.98f`). -/
def compute_angles (o : LibM) (s : SysState) : SysState :=
  let alpha : F := some (49/50)
  let a := s.imu
  let accel_roll := fdiv (fmul (latan2 o a.accel.y a.accel.z) (some 180)) (some M_PI)
  let accel_pitch := fdiv (fmul (latan2 o (fneg a.accel.x)
      (lsqrt o (fadd (fmul a.accel.y a.accel.y) (fmul a.accel.z a.accel.z)))) (some 180)) (some M_PI)
  let roll := fadd a.angles.roll (fmul a.gyro.x DT)
  let pitch := fadd a.angles.pitch (fmul a.gyro.y DT)
  let yaw := fadd a.angles.yaw (fmul a.gyro.z DT)
  let roll := fadd (fmul alpha roll) (fmul (fsub (some 1) alpha) accel_roll)
  let pitch := fadd (fmul alpha pitch) (fmul (fsub (some 1) alpha) accel_pitch)
  { s with imu := { a with angles := ⟨roll, pitch, yaw⟩ } }

/-- The flight-mode `switch` of `ControlThread` followed by the
    `mode >= MODE_POSITION_HOLD` call of `position_hold_controller`. -/
def nav_stage (o : LibM) (s : SysState) : SysState :=
  let s := if s.cmd.flight_mode = MODE_ALTITUDE_HOLD ∨ s.cmd.flight_mode = MODE_POSITION_HOLD
              ∨ s.cmd.flight_mode = MODE_AUTO then
             altitude_hold_controller s
           else if s.cmd.flight_mode = MODE_RTH then
             altitude_hold_controller (return_to_home_controller o s)
           else s
  if MODE_POSITION_HOLD ≤ s.cmd.flight_mode then position_hold_controller o s else s

/-- One iteration of the `ControlThread` loop body: read the IMU, estimate
    attitude, run the mode controllers, the obstacle override, the safety
    monitor, and the mixer.  The trailing `set_motor_pwm` calls emit
    `motors.m1..m4` to hardware and change no program state. -/
def tick (o : LibM) (s : SysState) (r : ImuRaw) : SysState :=
  stabilize_and_mix (safety_check (obstacle_avoidance o
    (nav_stage o (compute_angles o (read_imu_data s r)))))

-- API functions from the source.

def arm_motors (s : SysState) : SysState :=
  { s with cmd := { s.cmd with armed := true } }

def disarm_motors (s : SysState) : SysState :=
  { s with cmd := { s.cmd with armed := false } }

def set_flight_mode (mode : ℕ) (s : SysState) : SysState :=
  { s with cmd := { s.cmd with flight_mode := mode } }

def set_target_altitude (altitude_m : F) (s : SysState) : SysState :=
  { s with cmd := { s.cmd with target_altitude := altitude_m } }

def set_home_position (lat lon alt : F) (s : SysState) : SysState :=
  { s with cmd := { s.cmd with home_position := ⟨lat, lon, alt⟩ } }

def update_gps_data (lat lon alt speed heading : F) (sats : ℕ) (s : SysState) : SysState :=
  { s with gps := { position := ⟨lat, lon, alt⟩, ground_speed := speed, heading := heading,
                    num_sats := sats, fix_valid := decide (6 ≤ sats) } }

def update_baro_data (altitude vertical_speed : F) (s : SysState) : SysState :=
  { s with baro := { s.baro with altitude := altitude, vertical_speed := vertical_speed } }

def update_obstacle_data (distance angle : F) (detected : Bool) (s : SysState) : SysState :=
  { s with obstacle := ⟨distance, angle, detected⟩ }

-- Initialization.

def zeroVec : Vector3f := ⟨some 0, some 0, some 0⟩
def zeroEuler : Euler := ⟨some 0, some 0, some 0⟩
def zeroPos : GPSPosition := ⟨some 0, some 0, some 0⟩
def zeroPID : PID :=
  ⟨some 0, some 0, some 0, some 0, some 0, some 0, some 0, some 0⟩

/-- The C `static` zero-initialization of all globals (floats 0.0, integers
    0, booleans false). -/
def zeroState : SysState where
  imu := ⟨zeroVec, zeroVec, zeroEuler, some 0, 0⟩
  gps := ⟨zeroPos, some 0, some 0, 0, false⟩
  baro := ⟨some 0, some 0, some 0⟩
  obstacle := ⟨some 0, some 0, false⟩
  cmd := ⟨0, zeroEuler, false, 0, some 0, zeroPos, zeroPos⟩
  motors := ⟨0, 0, 0, 0, 0, 0, 0, 0⟩
  pid_roll := zeroPID
  pid_pitch := zeroPID
  pid_yaw := zeroPID
  pid_altitude := zeroPID
  pid_velocity_z := zeroPID
  pid_pos_n := zeroPID
  pid_pos_e := zeroPID
  pid_vel_n := zeroPID
  pid_vel_e := zeroPID

/-- Embedding of `control_system_init` from the source (the hardware/IMU bring-up changes
    no modelled state).  Note that `motors` is only zero-initialized: the
    init function itself never writes the motor outputs. -/
def control_system_init : SysState :=
  let s := zeroState
  { s with
    pid_roll := init_pid (some (3/2)) (some (1/50)) (some (4/5)) (some 400),
    pid_pitch := init_pid (some (3/2)) (some (1/50)) (some (4/5)) (some 400),
    pid_yaw := init_pid (some 2) (some (1/20)) (some (1/2)) (some 400),
    pid_altitude := init_pid (some 3) (some (1/2)) (some (3/2)) (some 500),
    pid_velocity_z := init_pid (some 2) (some (1/10)) (some (1/2)) (some 300),
    pid_pos_n := init_pid (some 1) (some (1/10)) (some (1/2)) (some 100),
    pid_pos_e := init_pid (some 1) (some (1/10)) (some (1/2)) (some 100),
    pid_vel_n := init_pid (some (1/2)) (some (1/20)) (some (1/10)) (some 50),
    pid_vel_e := init_pid (some (1/2)) (some (1/20)) (some (1/10)) (some 50),
    cmd := { s.cmd with
             throttle := 1000, setpoint := zeroEuler, armed := false,
             flight_mode := MODE_STABILIZE, target_altitude := some 0 },
    imu := { s.imu with angles := zeroEuler } }

/-!
Claim scaffolding: the disarm condition of `safety_check` as a predicate, a
trivial libm oracle and concrete states used to instantiate theorems, and an
iterator for finite sequences of `update_pid` calls.
-/

/-- The disjunction of the two disarm conditions checked by `safety_check`:
    excessive tilt (`fabsf > MAX_TILT_ANGLE`, false on NaN) or a NaN roll or
    pitch estimate. -/
def attitude_alarm (e : Euler) : Bool :=
  (fgt (fabsf e.roll) (some MAX_TILT_ANGLE) || fgt (fabsf e.pitch) (some MAX_TILT_ANGLE))
    || (isnanF e.roll || isnanF e.pitch)

/-- A trivial libm oracle (all functions constantly zero), used only to
    instantiate universally quantified theorems at concrete inputs. -/
def zeroLibM : LibM := ⟨fun _ => 0, fun _ => 0, fun _ => 0, fun _ _ => 0⟩

/-- A finite sequence of `update_pid` calls: each element is
    `(setpoint, measured, dt)`, all finite. -/
def runUpdates (p : PID) (calls : List (ℚ × ℚ × ℚ)) : PID :=
  calls.foldl (fun q c => update_pid q (some c.1) (some c.2.1) (some c.2.2)) p

/-- Raw IMU sample: level attitude, 1 g straight down, no rotation. -/
def rawLevel : ImuRaw := ⟨0, 0, 16384, 0, 0, 0⟩

/-- Raw IMU sample: 1 g straight down, rolling at 100 deg/s (raw 13100). -/
def rawGyroRoll : ImuRaw := ⟨0, 0, 16384, 13100, 0, 0⟩

/-- Initialized state with a 100° roll estimate (e.g. after a crash), used
    to instantiate the tilt-failsafe claim. -/
def tiltState : SysState :=
  { control_system_init with
    imu := { control_system_init.imu with
             angles := ⟨some 100, some 0, some 0⟩ } }

/-- Initialized state switched to `MODE_POSITION_HOLD` with no GPS fix
    (the zero-initialized `gps.fix_valid = false`). -/
def posHoldNoFix : SysState := set_flight_mode MODE_POSITION_HOLD control_system_init

/-- Initialized state in `MODE_RTH` with a valid fix (8 sats) and 5 m of
    baro altitude, so the land condition does not hold. -/
def rthAirborne : SysState :=
  update_baro_data (some 5) (some 0)
    (update_gps_data (some 0) (some 0) (some 0) (some 0) (some 0) 8
      (set_flight_mode MODE_RTH control_system_init))

/-- Altitude-hold state with target altitude 0, measured altitude 10 m and a
    (sensor-fault) vertical speed of 800 m/s; the previous PID errors are
    chosen to zero the derivative terms.  On this state the inner climb-rate
    PID outputs `throttle_adjust = -6424803/4000 ≈ -1606.2`. -/
def sAltFail : SysState :=
  { control_system_init with
    cmd := { control_system_init.cmd with
             flight_mode := MODE_ALTITUDE_HOLD, target_altitude := some 0 },
    baro := { control_system_init.baro with
              altitude := some 10, vertical_speed := some 800 },
    pid_altitude := { control_system_init.pid_altitude with
                      prev_error := some (-10) },
    pid_velocity_z := { control_system_init.pid_velocity_z with
                        prev_error := some (-803) } }

/-- One armed benign tick from the initialized state: level accelerometer,
    small roll rate, so the roll PID accumulates a nonzero integral. -/
def afterArmedTick : SysState := tick zeroLibM (arm_motors control_system_init) rawGyroRoll

/-- State `afterArmedTick` followed by `disarm_motors` then `arm_motors`: a
    disarmed→armed transition after a flight. -/
def rearmedState : SysState := arm_motors (disarm_motors afterArmedTick)

/-- The north position error `distance * cosf(bearing * M_PI / 180)`
    computed by `position_hold_controller` for a GPS position and a target
    (an abbreviation used to state the update-counting theorems). -/
def err_north (o : LibM) (pos tgt : GPSPosition) : F :=
  fmul (get_distance_meters o pos tgt)
    (lcos o (fdiv (fmul (get_bearing_deg o pos tgt) (some M_PI)) (some 180)))

/-- The east position error `distance * sinf(bearing * M_PI / 180)`. -/
def err_east (o : LibM) (pos tgt : GPSPosition) : F :=
  fmul (get_distance_meters o pos tgt)
    (lsin o (fdiv (fmul (get_bearing_deg o pos tgt) (some M_PI)) (some 180)))

/-- The north ground-velocity component `gs * cosf(heading * M_PI / 180)`. -/
def vel_north (o : LibM) (g : GPSData) : F :=
  fmul g.ground_speed (lcos o (fdiv (fmul g.heading (some M_PI)) (some 180)))

/-- The east ground-velocity component `gs * sinf(heading * M_PI / 180)`. -/
def vel_east (o : LibM) (g : GPSData) : F :=
  fmul g.ground_speed (lsin o (fdiv (fmul g.heading (some M_PI)) (some 180)))

/-!
Real-valued embedding of the geodesy for the mathematical distance claim:
floats are idealized as reals and the libm trigonometric functions as the
exact ones.  The `M_PI` constant is the same double constant the C source
uses.
-/

namespace Haversine

/-- The libm function `atan2f`, idealized: the argument of the point
    `(x, y)`, in `(-π, π]`. -/
noncomputable def atan2 (y x : ℝ) : ℝ := Complex.arg (x + y * Complex.I)

/-- The `GPSPosition` data as used by `get_distance_meters` (the `alt` field is not
    read by it). -/
structure GPSPos where
  lat : ℝ
  lon : ℝ

/-- Embedding of `get_distance_meters` from the source, over ℝ (products grouped
    left-associatively as in C). -/
noncomputable def get_distance_meters (pos1 pos2 : GPSPos) : ℝ :=
  let dlat := (pos2.lat - pos1.lat) * (M_PI : ℝ) / 180
  let dlon := (pos2.lon - pos1.lon) * (M_PI : ℝ) / 180
  let a := Real.sin (dlat / 2) * Real.sin (dlat / 2) +
      Real.cos (pos1.lat * (M_PI : ℝ) / 180) * Real.cos (pos2.lat * (M_PI : ℝ) / 180) *
        Real.sin (dlon / 2) * Real.sin (dlon / 2)
  let c := 2 * atan2 (Real.sqrt a) (Real.sqrt (1 - a))
  6371000 * c

theorem atan2_nonneg (y x : ℝ) (hy : 0 ≤ y) : 0 ≤ atan2 y x := by
  unfold atan2
  apply Complex.arg_nonneg_iff.mpr
  simp [hy]

theorem dist_self (p : GPSPos) : get_distance_meters p p = 0 := by
  unfold get_distance_meters atan2
  simp [Real.sqrt_one]

theorem dist_comm (p q : GPSPos) : get_distance_meters p q = get_distance_meters q p := by
  unfold get_distance_meters
  have h1 : (p.lat - q.lat) * (M_PI : ℝ) / 180 / 2
      = -((q.lat - p.lat) * (M_PI : ℝ) / 180 / 2) := by ring
  have h2 : (p.lon - q.lon) * (M_PI : ℝ) / 180 / 2
      = -((q.lon - p.lon) * (M_PI : ℝ) / 180 / 2) := by ring
  simp only [h1, h2, Real.sin_neg]
  ring_nf

theorem dist_nonneg (p q : GPSPos) : 0 ≤ get_distance_meters p q := by
  unfold get_distance_meters
  dsimp only
  have h := atan2_nonneg (Real.sqrt (Real.sin ((q.lat - p.lat) * (M_PI : ℝ) / 180 / 2) *
      Real.sin ((q.lat - p.lat) * (M_PI : ℝ) / 180 / 2) +
      Real.cos (p.lat * (M_PI : ℝ) / 180) * Real.cos (q.lat * (M_PI : ℝ) / 180) *
        Real.sin ((q.lon - p.lon) * (M_PI : ℝ) / 180 / 2) *
        Real.sin ((q.lon - p.lon) * (M_PI : ℝ) / 180 / 2)))
    (Real.sqrt (1 - (Real.sin ((q.lat - p.lat) * (M_PI : ℝ) / 180 / 2) *
      Real.sin ((q.lat - p.lat) * (M_PI : ℝ) / 180 / 2) +
      Real.cos (p.lat * (M_PI : ℝ) / 180) * Real.cos (q.lat * (M_PI : ℝ) / 180) *
        Real.sin ((q.lon - p.lon) * (M_PI : ℝ) / 180 / 2) *
        Real.sin ((q.lon - p.lon) * (M_PI : ℝ) / 180 / 2))))
    (Real.sqrt_nonneg _)
  nlinarith [h]

end Haversine

/-- C9: for all GPS positions `p` and `q` with finite coordinates,
    `get_distance_meters p p = 0`, `get_distance_meters p q =
    get_distance_meters q p`, and `get_distance_meters p q ≥ 0` (floats
    idealized as exact reals, so the symmetry holds exactly rather than
    within float tolerance). -/
theorem C9_distance_properties (p q : Haversine.GPSPos) :
    Haversine.get_distance_meters p p = 0 ∧
    Haversine.get_distance_meters p q = Haversine.get_distance_meters q p ∧
    0 ≤ Haversine.get_distance_meters p q :=
  ⟨Haversine.dist_self p, Haversine.dist_comm p q, Haversine.dist_nonneg p q⟩

/-!
Frame lemmas: which parts of the state each pipeline stage leaves unchanged.
These follow directly from the record updates each embedded function
performs and are used to settle the per-tick claims.
-/

@[simp] theorem read_imu_data_motors (s : SysState) (r : ImuRaw) :
    (read_imu_data s r).motors = s.motors := rfl

@[simp] theorem read_imu_data_cmd (s : SysState) (r : ImuRaw) :
    (read_imu_data s r).cmd = s.cmd := rfl

@[simp] theorem read_imu_data_gps (s : SysState) (r : ImuRaw) :
    (read_imu_data s r).gps = s.gps := rfl

@[simp] theorem read_imu_data_baro (s : SysState) (r : ImuRaw) :
    (read_imu_data s r).baro = s.baro := rfl

@[simp] theorem read_imu_data_pid_roll (s : SysState) (r : ImuRaw) :
    (read_imu_data s r).pid_roll = s.pid_roll := rfl

@[simp] theorem read_imu_data_pid_pitch (s : SysState) (r : ImuRaw) :
    (read_imu_data s r).pid_pitch = s.pid_pitch := rfl

@[simp] theorem read_imu_data_pid_yaw (s : SysState) (r : ImuRaw) :
    (read_imu_data s r).pid_yaw = s.pid_yaw := rfl

@[simp] theorem read_imu_data_pid_pos_n (s : SysState) (r : ImuRaw) :
    (read_imu_data s r).pid_pos_n = s.pid_pos_n := rfl

@[simp] theorem read_imu_data_pid_pos_e (s : SysState) (r : ImuRaw) :
    (read_imu_data s r).pid_pos_e = s.pid_pos_e := rfl

@[simp] theorem read_imu_data_pid_vel_n (s : SysState) (r : ImuRaw) :
    (read_imu_data s r).pid_vel_n = s.pid_vel_n := rfl

@[simp] theorem read_imu_data_pid_vel_e (s : SysState) (r : ImuRaw) :
    (read_imu_data s r).pid_vel_e = s.pid_vel_e := rfl

@[simp] theorem compute_angles_motors (o : LibM) (s : SysState) :
    (compute_angles o s).motors = s.motors := rfl

@[simp] theorem compute_angles_cmd (o : LibM) (s : SysState) :
    (compute_angles o s).cmd = s.cmd := rfl

@[simp] theorem compute_angles_gps (o : LibM) (s : SysState) :
    (compute_angles o s).gps = s.gps := rfl

@[simp] theorem compute_angles_baro (o : LibM) (s : SysState) :
    (compute_angles o s).baro = s.baro := rfl

@[simp] theorem compute_angles_pid_roll (o : LibM) (s : SysState) :
    (compute_angles o s).pid_roll = s.pid_roll := rfl

@[simp] theorem compute_angles_pid_pitch (o : LibM) (s : SysState) :
    (compute_angles o s).pid_pitch = s.pid_pitch := rfl

@[simp] theorem compute_angles_pid_yaw (o : LibM) (s : SysState) :
    (compute_angles o s).pid_yaw = s.pid_yaw := rfl

@[simp] theorem compute_angles_pid_pos_n (o : LibM) (s : SysState) :
    (compute_angles o s).pid_pos_n = s.pid_pos_n := rfl

@[simp] theorem compute_angles_pid_pos_e (o : LibM) (s : SysState) :
    (compute_angles o s).pid_pos_e = s.pid_pos_e := rfl

@[simp] theorem compute_angles_pid_vel_n (o : LibM) (s : SysState) :
    (compute_angles o s).pid_vel_n = s.pid_vel_n := rfl

@[simp] theorem compute_angles_pid_vel_e (o : LibM) (s : SysState) :
    (compute_angles o s).pid_vel_e = s.pid_vel_e := rfl

@[simp] theorem altitude_hold_motors (s : SysState) :
    (altitude_hold_controller s).motors = s.motors := by
  unfold altitude_hold_controller; split <;> rfl

@[simp] theorem altitude_hold_imu (s : SysState) :
    (altitude_hold_controller s).imu = s.imu := by
  unfold altitude_hold_controller; split <;> rfl

@[simp] theorem altitude_hold_gps (s : SysState) :
    (altitude_hold_controller s).gps = s.gps := by
  unfold altitude_hold_controller; split <;> rfl

@[simp] theorem altitude_hold_baro (s : SysState) :
    (altitude_hold_controller s).baro = s.baro := by
  unfold altitude_hold_controller; split <;> rfl

@[simp] theorem altitude_hold_armed (s : SysState) :
    (altitude_hold_controller s).cmd.armed = s.cmd.armed := by
  unfold altitude_hold_controller; split <;> rfl

@[simp] theorem altitude_hold_mode (s : SysState) :
    (altitude_hold_controller s).cmd.flight_mode = s.cmd.flight_mode := by
  unfold altitude_hold_controller; split <;> rfl

@[simp] theorem altitude_hold_setpoint (s : SysState) :
    (altitude_hold_controller s).cmd.setpoint = s.cmd.setpoint := by
  unfold altitude_hold_controller; split <;> rfl

@[simp] theorem altitude_hold_target_position (s : SysState) :
    (altitude_hold_controller s).cmd.target_position = s.cmd.target_position := by
  unfold altitude_hold_controller; split <;> rfl

@[simp] theorem altitude_hold_home_position (s : SysState) :
    (altitude_hold_controller s).cmd.home_position = s.cmd.home_position := by
  unfold altitude_hold_controller; split <;> rfl

@[simp] theorem altitude_hold_pid_roll (s : SysState) :
    (altitude_hold_controller s).pid_roll = s.pid_roll := by
  unfold altitude_hold_controller; split <;> rfl

@[simp] theorem altitude_hold_pid_pitch (s : SysState) :
    (altitude_hold_controller s).pid_pitch = s.pid_pitch := by
  unfold altitude_hold_controller; split <;> rfl

@[simp] theorem altitude_hold_pid_yaw (s : SysState) :
    (altitude_hold_controller s).pid_yaw = s.pid_yaw := by
  unfold altitude_hold_controller; split <;> rfl

@[simp] theorem altitude_hold_pid_pos_n (s : SysState) :
    (altitude_hold_controller s).pid_pos_n = s.pid_pos_n := by
  unfold altitude_hold_controller; split <;> rfl

@[simp] theorem altitude_hold_pid_pos_e (s : SysState) :
    (altitude_hold_controller s).pid_pos_e = s.pid_pos_e := by
  unfold altitude_hold_controller; split <;> rfl

@[simp] theorem altitude_hold_pid_vel_n (s : SysState) :
    (altitude_hold_controller s).pid_vel_n = s.pid_vel_n := by
  unfold altitude_hold_controller; split <;> rfl

@[simp] theorem altitude_hold_pid_vel_e (s : SysState) :
    (altitude_hold_controller s).pid_vel_e = s.pid_vel_e := by
  unfold altitude_hold_controller; split <;> rfl

@[simp] theorem position_hold_motors (o : LibM) (s : SysState) :
    (position_hold_controller o s).motors = s.motors := by
  unfold position_hold_controller; split <;> rfl

@[simp] theorem position_hold_imu (o : LibM) (s : SysState) :
    (position_hold_controller o s).imu = s.imu := by
  unfold position_hold_controller; split <;> rfl

@[simp] theorem position_hold_gps (o : LibM) (s : SysState) :
    (position_hold_controller o s).gps = s.gps := by
  unfold position_hold_controller; split <;> rfl

@[simp] theorem position_hold_baro (o : LibM) (s : SysState) :
    (position_hold_controller o s).baro = s.baro := by
  unfold position_hold_controller; split <;> rfl

@[simp] theorem position_hold_armed (o : LibM) (s : SysState) :
    (position_hold_controller o s).cmd.armed = s.cmd.armed := by
  unfold position_hold_controller; split <;> rfl

@[simp] theorem position_hold_mode (o : LibM) (s : SysState) :
    (position_hold_controller o s).cmd.flight_mode = s.cmd.flight_mode := by
  unfold position_hold_controller; split <;> rfl

@[simp] theorem position_hold_throttle (o : LibM) (s : SysState) :
    (position_hold_controller o s).cmd.throttle = s.cmd.throttle := by
  unfold position_hold_controller; split <;> rfl

@[simp] theorem position_hold_target_position (o : LibM) (s : SysState) :
    (position_hold_controller o s).cmd.target_position = s.cmd.target_position := by
  unfold position_hold_controller; split <;> rfl

@[simp] theorem position_hold_target_altitude (o : LibM) (s : SysState) :
    (position_hold_controller o s).cmd.target_altitude = s.cmd.target_altitude := by
  unfold position_hold_controller; split <;> rfl

@[simp] theorem position_hold_home_position (o : LibM) (s : SysState) :
    (position_hold_controller o s).cmd.home_position = s.cmd.home_position := by
  unfold position_hold_controller; split <;> rfl

@[simp] theorem position_hold_pid_roll (o : LibM) (s : SysState) :
    (position_hold_controller o s).pid_roll = s.pid_roll := by
  unfold position_hold_controller; split <;> rfl

@[simp] theorem position_hold_pid_pitch (o : LibM) (s : SysState) :
    (position_hold_controller o s).pid_pitch = s.pid_pitch := by
  unfold position_hold_controller; split <;> rfl

@[simp] theorem position_hold_pid_yaw (o : LibM) (s : SysState) :
    (position_hold_controller o s).pid_yaw = s.pid_yaw := by
  unfold position_hold_controller; split <;> rfl

@[simp] theorem position_hold_pid_altitude (o : LibM) (s : SysState) :
    (position_hold_controller o s).pid_altitude = s.pid_altitude := by
  unfold position_hold_controller; split <;> rfl

@[simp] theorem position_hold_pid_velocity_z (o : LibM) (s : SysState) :
    (position_hold_controller o s).pid_velocity_z = s.pid_velocity_z := by
  unfold position_hold_controller; split <;> rfl

@[simp] theorem rth_motors (o : LibM) (s : SysState) :
    (return_to_home_controller o s).motors = s.motors := by
  unfold return_to_home_controller; dsimp only; split_ifs <;> simp

@[simp] theorem rth_imu (o : LibM) (s : SysState) :
    (return_to_home_controller o s).imu = s.imu := by
  unfold return_to_home_controller; dsimp only; split_ifs <;> simp

@[simp] theorem rth_gps (o : LibM) (s : SysState) :
    (return_to_home_controller o s).gps = s.gps := by
  unfold return_to_home_controller; dsimp only; split_ifs <;> simp

@[simp] theorem rth_baro (o : LibM) (s : SysState) :
    (return_to_home_controller o s).baro = s.baro := by
  unfold return_to_home_controller; dsimp only; split_ifs <;> simp

@[simp] theorem rth_mode (o : LibM) (s : SysState) :
    (return_to_home_controller o s).cmd.flight_mode = s.cmd.flight_mode := by
  unfold return_to_home_controller; dsimp only; split_ifs <;> simp

@[simp] theorem rth_throttle (o : LibM) (s : SysState) :
    (return_to_home_controller o s).cmd.throttle = s.cmd.throttle := by
  unfold return_to_home_controller; dsimp only; split_ifs <;> simp

@[simp] theorem rth_pid_roll (o : LibM) (s : SysState) :
    (return_to_home_controller o s).pid_roll = s.pid_roll := by
  unfold return_to_home_controller; dsimp only; split_ifs <;> simp

@[simp] theorem rth_pid_pitch (o : LibM) (s : SysState) :
    (return_to_home_controller o s).pid_pitch = s.pid_pitch := by
  unfold return_to_home_controller; dsimp only; split_ifs <;> simp

@[simp] theorem rth_pid_yaw (o : LibM) (s : SysState) :
    (return_to_home_controller o s).pid_yaw = s.pid_yaw := by
  unfold return_to_home_controller; dsimp only; split_ifs <;> simp

@[simp] theorem obstacle_motors (o : LibM) (s : SysState) :
    (obstacle_avoidance o s).motors = s.motors := by
  unfold obstacle_avoidance; dsimp only; split_ifs <;> simp

@[simp] theorem obstacle_imu (o : LibM) (s : SysState) :
    (obstacle_avoidance o s).imu = s.imu := by
  unfold obstacle_avoidance; dsimp only; split_ifs <;> simp

@[simp] theorem obstacle_gps (o : LibM) (s : SysState) :
    (obstacle_avoidance o s).gps = s.gps := by
  unfold obstacle_avoidance; dsimp only; split_ifs <;> simp

@[simp] theorem obstacle_baro (o : LibM) (s : SysState) :
    (obstacle_avoidance o s).baro = s.baro := by
  unfold obstacle_avoidance; dsimp only; split_ifs <;> simp

@[simp] theorem obstacle_armed (o : LibM) (s : SysState) :
    (obstacle_avoidance o s).cmd.armed = s.cmd.armed := by
  unfold obstacle_avoidance; dsimp only; split_ifs <;> simp

@[simp] theorem obstacle_mode (o : LibM) (s : SysState) :
    (obstacle_avoidance o s).cmd.flight_mode = s.cmd.flight_mode := by
  unfold obstacle_avoidance; dsimp only; split_ifs <;> simp

@[simp] theorem obstacle_throttle (o : LibM) (s : SysState) :
    (obstacle_avoidance o s).cmd.throttle = s.cmd.throttle := by
  unfold obstacle_avoidance; dsimp only; split_ifs <;> simp

@[simp] theorem obstacle_pid_roll (o : LibM) (s : SysState) :
    (obstacle_avoidance o s).pid_roll = s.pid_roll := by
  unfold obstacle_avoidance; dsimp only; split_ifs <;> simp

@[simp] theorem obstacle_pid_pitch (o : LibM) (s : SysState) :
    (obstacle_avoidance o s).pid_pitch = s.pid_pitch := by
  unfold obstacle_avoidance; dsimp only; split_ifs <;> simp

@[simp] theorem obstacle_pid_yaw (o : LibM) (s : SysState) :
    (obstacle_avoidance o s).pid_yaw = s.pid_yaw := by
  unfold obstacle_avoidance; dsimp only; split_ifs <;> simp

@[simp] theorem obstacle_pid_pos_n (o : LibM) (s : SysState) :
    (obstacle_avoidance o s).pid_pos_n = s.pid_pos_n := by
  unfold obstacle_avoidance; dsimp only; split_ifs <;> simp

@[simp] theorem obstacle_pid_pos_e (o : LibM) (s : SysState) :
    (obstacle_avoidance o s).pid_pos_e = s.pid_pos_e := by
  unfold obstacle_avoidance; dsimp only; split_ifs <;> simp

@[simp] theorem obstacle_pid_vel_n (o : LibM) (s : SysState) :
    (obstacle_avoidance o s).pid_vel_n = s.pid_vel_n := by
  unfold obstacle_avoidance; dsimp only; split_ifs <;> simp

@[simp] theorem obstacle_pid_vel_e (o : LibM) (s : SysState) :
    (obstacle_avoidance o s).pid_vel_e = s.pid_vel_e := by
  unfold obstacle_avoidance; dsimp only; split_ifs <;> simp

@[simp] theorem obstacle_pid_altitude (o : LibM) (s : SysState) :
    (obstacle_avoidance o s).pid_altitude = s.pid_altitude := by
  unfold obstacle_avoidance; dsimp only; split_ifs <;> simp

@[simp] theorem obstacle_pid_velocity_z (o : LibM) (s : SysState) :
    (obstacle_avoidance o s).pid_velocity_z = s.pid_velocity_z := by
  unfold obstacle_avoidance; dsimp only; split_ifs <;> simp

@[simp] theorem safety_check_motors (s : SysState) :
    (safety_check s).motors = s.motors := rfl

@[simp] theorem safety_check_imu (s : SysState) :
    (safety_check s).imu = s.imu := rfl

@[simp] theorem safety_check_gps (s : SysState) :
    (safety_check s).gps = s.gps := rfl

@[simp] theorem safety_check_baro (s : SysState) :
    (safety_check s).baro = s.baro := rfl

@[simp] theorem safety_check_throttle (s : SysState) :
    (safety_check s).cmd.throttle = s.cmd.throttle := rfl

@[simp] theorem safety_check_setpoint (s : SysState) :
    (safety_check s).cmd.setpoint = s.cmd.setpoint := rfl

@[simp] theorem safety_check_pid_roll (s : SysState) :
    (safety_check s).pid_roll = s.pid_roll := rfl

@[simp] theorem safety_check_pid_pitch (s : SysState) :
    (safety_check s).pid_pitch = s.pid_pitch := rfl

@[simp] theorem safety_check_pid_yaw (s : SysState) :
    (safety_check s).pid_yaw = s.pid_yaw := rfl

@[simp] theorem safety_check_pid_pos_n (s : SysState) :
    (safety_check s).pid_pos_n = s.pid_pos_n := rfl

@[simp] theorem safety_check_pid_pos_e (s : SysState) :
    (safety_check s).pid_pos_e = s.pid_pos_e := rfl

@[simp] theorem safety_check_pid_vel_n (s : SysState) :
    (safety_check s).pid_vel_n = s.pid_vel_n := rfl

@[simp] theorem safety_check_pid_vel_e (s : SysState) :
    (safety_check s).pid_vel_e = s.pid_vel_e := rfl

@[simp] theorem stabilize_cmd (s : SysState) :
    (stabilize_and_mix s).cmd = s.cmd := by
  unfold stabilize_and_mix; split <;> rfl

@[simp] theorem stabilize_imu (s : SysState) :
    (stabilize_and_mix s).imu = s.imu := by
  unfold stabilize_and_mix; split <;> rfl

@[simp] theorem stabilize_gps (s : SysState) :
    (stabilize_and_mix s).gps = s.gps := by
  unfold stabilize_and_mix; split <;> rfl

@[simp] theorem stabilize_baro (s : SysState) :
    (stabilize_and_mix s).baro = s.baro := by
  unfold stabilize_and_mix; split <;> rfl

@[simp] theorem stabilize_pid_pos_n (s : SysState) :
    (stabilize_and_mix s).pid_pos_n = s.pid_pos_n := by
  unfold stabilize_and_mix; split <;> rfl

@[simp] theorem stabilize_pid_pos_e (s : SysState) :
    (stabilize_and_mix s).pid_pos_e = s.pid_pos_e := by
  unfold stabilize_and_mix; split <;> rfl

@[simp] theorem stabilize_pid_vel_n (s : SysState) :
    (stabilize_and_mix s).pid_vel_n = s.pid_vel_n := by
  unfold stabilize_and_mix; split <;> rfl

@[simp] theorem stabilize_pid_vel_e (s : SysState) :
    (stabilize_and_mix s).pid_vel_e = s.pid_vel_e := by
  unfold stabilize_and_mix; split <;> rfl

@[simp] theorem stabilize_pid_altitude (s : SysState) :
    (stabilize_and_mix s).pid_altitude = s.pid_altitude := by
  unfold stabilize_and_mix; split <;> rfl

@[simp] theorem stabilize_pid_velocity_z (s : SysState) :
    (stabilize_and_mix s).pid_velocity_z = s.pid_velocity_z := by
  unfold stabilize_and_mix; split <;> rfl

@[simp] theorem nav_stage_motors (o : LibM) (s : SysState) :
    (nav_stage o s).motors = s.motors := by
  unfold nav_stage; dsimp only; split_ifs <;> simp

@[simp] theorem nav_stage_imu (o : LibM) (s : SysState) :
    (nav_stage o s).imu = s.imu := by
  unfold nav_stage; dsimp only; split_ifs <;> simp

@[simp] theorem nav_stage_gps (o : LibM) (s : SysState) :
    (nav_stage o s).gps = s.gps := by
  unfold nav_stage; dsimp only; split_ifs <;> simp

@[simp] theorem nav_stage_baro (o : LibM) (s : SysState) :
    (nav_stage o s).baro = s.baro := by
  unfold nav_stage; dsimp only; split_ifs <;> simp

@[simp] theorem nav_stage_mode (o : LibM) (s : SysState) :
    (nav_stage o s).cmd.flight_mode = s.cmd.flight_mode := by
  unfold nav_stage; dsimp only; split_ifs <;> simp

@[simp] theorem nav_stage_pid_roll (o : LibM) (s : SysState) :
    (nav_stage o s).pid_roll = s.pid_roll := by
  unfold nav_stage; dsimp only; split_ifs <;> simp

@[simp] theorem nav_stage_pid_pitch (o : LibM) (s : SysState) :
    (nav_stage o s).pid_pitch = s.pid_pitch := by
  unfold nav_stage; dsimp only; split_ifs <;> simp

@[simp] theorem nav_stage_pid_yaw (o : LibM) (s : SysState) :
    (nav_stage o s).pid_yaw = s.pid_yaw := by
  unfold nav_stage; dsimp only; split_ifs <;> simp

theorem rth_armed_false (o : LibM) (s : SysState) (h : s.cmd.armed = false) :
    (return_to_home_controller o s).cmd.armed = false := by
  unfold return_to_home_controller; dsimp only; split_ifs <;> simp [h]

theorem nav_stage_armed_false (o : LibM) (s : SysState) (h : s.cmd.armed = false) :
    (nav_stage o s).cmd.armed = false := by
  unfold nav_stage; dsimp only; split_ifs <;>
    simp [h, rth_armed_false, altitude_hold_armed]

theorem safety_check_armed_false (s : SysState) (h : s.cmd.armed = false) :
    (safety_check s).cmd.armed = false := by
  unfold safety_check; dsimp only; split_ifs <;> simp [h]

theorem rth_armed_mono (o : LibM) (s : SysState)
    (h : (return_to_home_controller o s).cmd.armed = true) : s.cmd.armed = true := by
  cases hin : s.cmd.armed
  · rw [rth_armed_false o s hin] at h; exact h
  · rfl

theorem nav_stage_armed_mono (o : LibM) (s : SysState)
    (h : (nav_stage o s).cmd.armed = true) : s.cmd.armed = true := by
  cases hin : s.cmd.armed
  · rw [nav_stage_armed_false o s hin] at h; exact h
  · rfl

theorem safety_check_armed_mono (s : SysState)
    (h : (safety_check s).cmd.armed = true) : s.cmd.armed = true := by
  cases hin : s.cmd.armed
  · rw [safety_check_armed_false s hin] at h; exact h
  · rfl

theorem safety_check_unsafe_disarms (s : SysState)
    (h : attitude_alarm s.imu.angles = true) : (safety_check s).cmd.armed = false := by
  unfold attitude_alarm at h
  simp only [Bool.or_eq_true] at h
  unfold safety_check; dsimp only
  rcases h with (h | h) | (h | h) <;> split_ifs <;> simp_all

theorem safety_check_safe_keeps (s : SysState)
    (h : attitude_alarm s.imu.angles = false) : (safety_check s).cmd.armed = s.cmd.armed := by
  unfold attitude_alarm at h
  simp only [Bool.or_eq_false_iff] at h
  unfold safety_check; dsimp only
  split_ifs <;> simp_all

theorem safety_check_demotes (s : SysState) (h1 : MODE_POSITION_HOLD ≤ s.cmd.flight_mode)
    (h2 : s.gps.fix_valid = false) :
    (safety_check s).cmd.flight_mode = MODE_ALTITUDE_HOLD := by
  unfold safety_check; dsimp only
  simp [h1, h2]

/-- The disarmed branch of `stabilize_and_mix` in full: all eight motors to
    `MOTOR_MIN` and nothing else changed. -/
theorem stabilize_disarmed (s : SysState) (h : s.cmd.armed = false) :
    stabilize_and_mix s = { s with motors := ⟨1000, 1000, 1000, 1000, 1000, 1000, 1000, 1000⟩ } := by
  unfold stabilize_and_mix; simp [h]

-- Evaluation lemmas for the float model on finite operands.

@[simp] theorem fadd_some (a b : ℚ) : fadd (some a) (some b) = some (a + b) := rfl
@[simp] theorem fsub_some (a b : ℚ) : fsub (some a) (some b) = some (a - b) := rfl
@[simp] theorem fmul_some (a b : ℚ) : fmul (some a) (some b) = some (a * b) := rfl
@[simp] theorem fneg_some (a : ℚ) : fneg (some a) = some (-a) := rfl
@[simp] theorem fabsf_some (a : ℚ) : fabsf (some a) = some |a| := rfl
@[simp] theorem flt_some (a b : ℚ) : flt (some a) (some b) = decide (a < b) := rfl
@[simp] theorem fgt_some (a b : ℚ) : fgt (some a) (some b) = decide (b < a) := rfl
@[simp] theorem isnanF_some (a : ℚ) : isnanF (some a) = false := rfl
@[simp] theorem isnanF_none : isnanF none = true := rfl

theorem fdiv_some (a b : ℚ) (h : b ≠ 0) : fdiv (some a) (some b) = some (a / b) := by
  unfold fdiv; simp [h]

/-- Evaluation of the float→`uint16_t` conversion on a value in the motor
    range. -/
theorem f_to_u16_of_bounds (q : ℚ) (h1 : 1000 ≤ q) (h2 : q ≤ 2000) :
    1000 ≤ f_to_u16 (some q) ∧ f_to_u16 (some q) ≤ 2000 := by
  show 1000 ≤ (if q ≤ 0 then 0 else min (ratTrunc q).toNat 65535) ∧
      (if q ≤ 0 then 0 else min (ratTrunc q).toNat 65535) ≤ 2000
  unfold ratTrunc
  rw [if_neg (by linarith : ¬ q ≤ 0), if_pos (by linarith : (0:ℚ) ≤ q)]
  have hf1 : (1000 : ℤ) ≤ ⌊q⌋ := Int.le_floor.mpr (by exact_mod_cast h1)
  have hf2 : ⌊q⌋ ≤ 2000 := by
    have h := le_trans (Int.floor_le q) h2
    exact_mod_cast h
  omega

/-- The post-mix clamp of a motor channel always lands in
    `[MOTOR_MIN, MOTOR_MAX]`, whatever `uint16_t` value was stored by the
    mixing line. -/
theorem clamp_u16_range (k : ℕ) :
    1000 ≤ f_to_u16 (constrain_float (u16_to_f k) (some MOTOR_MIN) (some MOTOR_MAX)) ∧
    f_to_u16 (constrain_float (u16_to_f k) (some MOTOR_MIN) (some MOTOR_MAX)) ≤ 2000 := by
  unfold constrain_float u16_to_f MOTOR_MIN MOTOR_MAX
  by_cases h1 : (k : ℚ) < 1000
  · rw [if_pos (by simp [h1])]
    exact f_to_u16_of_bounds 1000 (by norm_num) (by norm_num)
  · rw [if_neg (by simp [h1])]
    by_cases h2 : (2000 : ℚ) < (k : ℚ)
    · rw [if_pos (by simp [h2])]
      exact f_to_u16_of_bounds 2000 (by norm_num) (by norm_num)
    · rw [if_neg (by simp [h2])]
      exact f_to_u16_of_bounds _ (le_of_not_lt h1) (le_of_not_lt h2)

/-- Motor-channel bounds established by one `stabilize_and_mix` call:
    channels 1–4 are clamped into `[MOTOR_MIN, MOTOR_MAX]`; channels 5–8
    are written (to `MOTOR_MIN`) only by the disarmed branch and are
    otherwise left unchanged. -/
theorem stabilize_motor_range (s : SysState) :
    (1000 ≤ (stabilize_and_mix s).motors.m1 ∧ (stabilize_and_mix s).motors.m1 ≤ 2000) ∧
    (1000 ≤ (stabilize_and_mix s).motors.m2 ∧ (stabilize_and_mix s).motors.m2 ≤ 2000) ∧
    (1000 ≤ (stabilize_and_mix s).motors.m3 ∧ (stabilize_and_mix s).motors.m3 ≤ 2000) ∧
    (1000 ≤ (stabilize_and_mix s).motors.m4 ∧ (stabilize_and_mix s).motors.m4 ≤ 2000) ∧
    ((stabilize_and_mix s).motors.m5 = 1000 ∨ (stabilize_and_mix s).motors.m5 = s.motors.m5) ∧
    ((stabilize_and_mix s).motors.m6 = 1000 ∨ (stabilize_and_mix s).motors.m6 = s.motors.m6) ∧
    ((stabilize_and_mix s).motors.m7 = 1000 ∨ (stabilize_and_mix s).motors.m7 = s.motors.m7) ∧
    ((stabilize_and_mix s).motors.m8 = 1000 ∨ (stabilize_and_mix s).motors.m8 = s.motors.m8) := by
  unfold stabilize_and_mix
  split
  · norm_num
  · dsimp only
    exact ⟨clamp_u16_range _, clamp_u16_range _, clamp_u16_range _, clamp_u16_range _,
      Or.inr rfl, Or.inr rfl, Or.inr rfl, Or.inr rfl⟩

theorem update_pid_integral_bound (p : PID) (M : ℚ) (hM : 0 ≤ M)
    (hmax : p.max_integral = some M) (hint : ∃ v, p.integral = some v ∧ |v| ≤ M)
    (sp m d : ℚ) :
    (update_pid p (some sp) (some m) (some d)).max_integral = some M ∧
    ∃ v, (update_pid p (some sp) (some m) (some d)).integral = some v ∧ |v| ≤ M := by
  obtain ⟨v, hv, hb⟩ := hint
  unfold update_pid
  dsimp only
  refine ⟨hmax, ?_⟩
  rw [hv, hmax]
  show ∃ w, constrain_float (fadd (some v) (fmul (fsub (some sp) (some m)) (some d)))
      (fneg (some M)) (some M) = some w ∧ |w| ≤ M
  simp only [fadd_some, fmul_some, fsub_some, fneg_some]
  unfold constrain_float
  by_cases h1 : v + (sp - m) * d < -M
  · rw [if_pos (by simp [h1])]
    exact ⟨-M, rfl, by rw [abs_neg, abs_of_nonneg hM]⟩
  · rw [if_neg (by simp [h1])]
    by_cases h2 : M < v + (sp - m) * d
    · rw [if_pos (by simp [h2])]
      exact ⟨M, rfl, by rw [abs_of_nonneg hM]⟩
    · rw [if_neg (by simp [h2])]
      exact ⟨v + (sp - m) * d, rfl, abs_le.mpr ⟨le_of_not_lt h1, le_of_not_lt h2⟩⟩

theorem runUpdates_bound (M : ℚ) (hM : 0 ≤ M) :
    ∀ (calls : List (ℚ × ℚ × ℚ)) (p : PID), p.max_integral = some M →
      (∃ v, p.integral = some v ∧ |v| ≤ M) →
      (runUpdates p calls).max_integral = some M ∧
        ∃ v, (runUpdates p calls).integral = some v ∧ |v| ≤ M
  | [], _, hmax, hint => ⟨hmax, hint⟩
  | c :: cs, p, hmax, hint => by
      have h := update_pid_integral_bound p M hM hmax hint c.1 c.2.1 c.2.2
      have hr : runUpdates p (c :: cs)
          = runUpdates (update_pid p (some c.1) (some c.2.1) (some c.2.2)) cs := rfl
      rw [hr]
      exact runUpdates_bound M hM cs _ h.1 h.2

/-- C2 (amended): at the end of every tick, motors 1–4 lie in
    `[MOTOR_MIN, MOTOR_MAX] = [1000, 2000]` regardless of armed state,
    flight mode or controller outputs; motors 5–8 are each either set to
    `MOTOR_MIN` (by a disarmed mix) or left unchanged by the tick, so they
    lie in range at the end of every tick from the first tick whose mix ran
    disarmed onward — but not necessarily on a first tick that was armed
    before completing, since they are only zero-initialized. -/
theorem C2_motor_range (o : LibM) (s : SysState) (r : ImuRaw) :
    (1000 ≤ (tick o s r).motors.m1 ∧ (tick o s r).motors.m1 ≤ 2000) ∧
    (1000 ≤ (tick o s r).motors.m2 ∧ (tick o s r).motors.m2 ≤ 2000) ∧
    (1000 ≤ (tick o s r).motors.m3 ∧ (tick o s r).motors.m3 ≤ 2000) ∧
    (1000 ≤ (tick o s r).motors.m4 ∧ (tick o s r).motors.m4 ≤ 2000) ∧
    ((tick o s r).motors.m5 = 1000 ∨ (tick o s r).motors.m5 = s.motors.m5) ∧
    ((tick o s r).motors.m6 = 1000 ∨ (tick o s r).motors.m6 = s.motors.m6) ∧
    ((tick o s r).motors.m7 = 1000 ∨ (tick o s r).motors.m7 = s.motors.m7) ∧
    ((tick o s r).motors.m8 = 1000 ∨ (tick o s r).motors.m8 = s.motors.m8) := by
  have hpre : (safety_check (obstacle_avoidance o
      (nav_stage o (compute_angles o (read_imu_data s r))))).motors = s.motors := by simp
  have h := stabilize_motor_range (safety_check (obstacle_avoidance o
      (nav_stage o (compute_angles o (read_imu_data s r)))))
  rw [hpre] at h
  exact h

/-- C2 counterexample: from the freshly initialized state, call `arm_motors`
    before the first tick completes and run one (benign) tick: the tick's
    mix runs armed, so motor 5 keeps its zero-initialized value 0, which is
    outside `[MOTOR_MIN, MOTOR_MAX]`. -/
theorem C2_m5_counterexample :
    (tick zeroLibM (arm_motors control_system_init) rawLevel).motors.m5 = 0 ∧
    ¬ (1000 ≤ (tick zeroLibM (arm_motors control_system_init) rawLevel).motors.m5) := by
  decide

/-- C3: whenever `stabilize_and_mix` runs with `cmd.armed = false`, all
    eight motor channels are set to `MOTOR_MIN` (1000 µs) and the roll,
    pitch and yaw attitude PIDs are not updated in that call. -/
theorem C3_disarmed_floor (s : SysState) (h : s.cmd.armed = false) :
    (stabilize_and_mix s).motors = ⟨1000, 1000, 1000, 1000, 1000, 1000, 1000, 1000⟩ ∧
    (stabilize_and_mix s).pid_roll = s.pid_roll ∧
    (stabilize_and_mix s).pid_pitch = s.pid_pitch ∧
    (stabilize_and_mix s).pid_yaw = s.pid_yaw := by
  rw [stabilize_disarmed s h]
  exact ⟨rfl, rfl, rfl, rfl⟩

/-- C3 witness: the freshly initialized state is disarmed and its mix
    produces the all-`MOTOR_MIN` output with unchanged attitude PIDs. -/
theorem C3_disarmed_floor_witness :
    control_system_init.cmd.armed = false ∧
    (stabilize_and_mix control_system_init).motors
      = ⟨1000, 1000, 1000, 1000, 1000, 1000, 1000, 1000⟩ ∧
    (stabilize_and_mix control_system_init).pid_roll = control_system_init.pid_roll :=
  ⟨rfl, (C3_disarmed_floor control_system_init rfl).1,
    (C3_disarmed_floor control_system_init rfl).2.1⟩

/-- C4: a PID initialized by `init_pid` with `max_integral = M ≥ 0`
    satisfies `|integral| ≤ M` after any finite sequence of `update_pid`
    calls with finite setpoint, measured value, and `dt > 0`. -/
theorem C4_integral_bound (kp ki kd : F) (M : ℚ) (hM : 0 ≤ M)
    (calls : List (ℚ × ℚ × ℚ)) (hdt : ∀ c ∈ calls, 0 < c.2.2) :
    ∃ v, (runUpdates (init_pid kp ki kd (some M)) calls).integral = some v ∧ |v| ≤ M := by
  have h := runUpdates_bound M hM calls (init_pid kp ki kd (some M)) rfl
    ⟨0, rfl, by simpa using hM⟩
  exact h.2

/-- C4 witness: the roll PID's parameters, one update with error 1 and
    `dt = DT`. -/
theorem C4_integral_bound_witness :
    (0 : ℚ) ≤ 400 ∧ (∀ c ∈ [((1 : ℚ), (0 : ℚ), (1/400 : ℚ))], 0 < c.2.2) ∧
    ∃ v, (runUpdates (init_pid (some (3/2)) (some (1/50)) (some (4/5)) (some 400))
        [((1 : ℚ), (0 : ℚ), (1/400 : ℚ))]).integral = some v ∧ |v| ≤ 400 :=
  ⟨by norm_num, by decide,
    C4_integral_bound (some (3/2)) (some (1/50)) (some (4/5)) 400 (by norm_num)
      [((1 : ℚ), (0 : ℚ), (1/400 : ℚ))] (by decide)⟩

/-- C8: whenever `position_hold_controller` runs with
    `cmd.flight_mode < MODE_POSITION_HOLD` or without a GPS fix, it returns
    with the state entirely unchanged — in particular the roll/pitch
    setpoints and the four position/velocity PIDs are untouched. -/
theorem C8_position_hold_skip (o : LibM) (s : SysState)
    (h : s.cmd.flight_mode < MODE_POSITION_HOLD ∨ s.gps.fix_valid = false) :
    position_hold_controller o s = s := by
  unfold position_hold_controller
  rw [if_pos h]

/-- C8 witness: the initialized state (mode Stabilize < PositionHold). -/
theorem C8_position_hold_skip_witness :
    (control_system_init.cmd.flight_mode < MODE_POSITION_HOLD ∨
      control_system_init.gps.fix_valid = false) ∧
    position_hold_controller zeroLibM control_system_init = control_system_init :=
  ⟨Or.inl (by decide),
    C8_position_hold_skip zeroLibM control_system_init (Or.inl (by decide))⟩

/-- The `safety_check` disarm condition in claim form: tilt beyond 45° on a
    finite estimate, or a NaN roll/pitch estimate. -/
theorem attitude_alarm_iff (e : Euler) :
    attitude_alarm e = true ↔
      ((∃ q, e.roll = some q ∧ 45 < |q|) ∨ (∃ q, e.pitch = some q ∧ 45 < |q|) ∨
        e.roll = none ∨ e.pitch = none) := by
  unfold attitude_alarm MAX_TILT_ANGLE
  cases hr : e.roll <;> cases hp : e.pitch <;> simp

/-- Lemma: `position_hold_controller` is the identity when inactive. -/
theorem position_hold_id (o : LibM) (s : SysState)
    (h : s.cmd.flight_mode < MODE_POSITION_HOLD ∨ s.gps.fix_valid = false) :
    position_hold_controller o s = s := by
  unfold position_hold_controller
  rw [if_pos h]

/-- Lemma: `return_to_home_controller` is the identity without a GPS fix. -/
theorem rth_no_fix (o : LibM) (s : SysState) (h : s.gps.fix_valid = false) :
    return_to_home_controller o s = s := by
  unfold return_to_home_controller
  rw [if_pos (Or.inr h)]

/-- Without a GPS fix no stage before the safety monitor can change the
    armed flag. -/
theorem nav_stage_armed_of_no_fix (o : LibM) (s : SysState)
    (h : s.gps.fix_valid = false) :
    (nav_stage o s).cmd.armed = s.cmd.armed := by
  unfold nav_stage; dsimp only
  split_ifs <;> simp [rth_no_fix, position_hold_id, h]

theorem tick_armed_mono (o : LibM) (s : SysState) (r : ImuRaw)
    (h : (tick o s r).cmd.armed = true) : s.cmd.armed = true := by
  unfold tick at h
  rw [stabilize_cmd] at h
  have h2 := safety_check_armed_mono _ h
  rw [obstacle_armed] at h2
  have h3 := nav_stage_armed_mono _ _ h2
  rw [compute_angles_cmd, read_imu_data_cmd] at h3
  exact h3

/-- The attitude a tick ends with is the one `safety_check` saw: it is
    produced by `compute_angles` and not modified afterwards. -/
theorem tick_imu_eq (o : LibM) (s : SysState) (r : ImuRaw) :
    (tick o s r).imu
      = (obstacle_avoidance o (nav_stage o (compute_angles o (read_imu_data s r)))).imu := by
  unfold tick
  rw [stabilize_imu, safety_check_imu]

theorem tick_unsafe_disarms (o : LibM) (s : SysState) (r : ImuRaw)
    (h : attitude_alarm (tick o s r).imu.angles = true) :
    (tick o s r).cmd.armed = false := by
  rw [tick_imu_eq] at h
  unfold tick
  rw [stabilize_cmd]
  exact safety_check_unsafe_disarms _ h

/-- C1: if at the end of a tick the estimated attitude has `|roll| > 45`,
    or `|pitch| > 45`, or a NaN roll or pitch, then the safety monitor has
    set `armed = false`, so the next tick starts disarmed; no stage of a
    tick ever sets the armed flag, and re-arming happens only through the
    external `arm_motors` call (which sets it unconditionally). -/
theorem C1_safety_disarm (o : LibM) (s : SysState) (r : ImuRaw) :
    (((∃ q, (tick o s r).imu.angles.roll = some q ∧ 45 < |q|) ∨
      (∃ q, (tick o s r).imu.angles.pitch = some q ∧ 45 < |q|) ∨
      (tick o s r).imu.angles.roll = none ∨ (tick o s r).imu.angles.pitch = none) →
        (tick o s r).cmd.armed = false) ∧
    ((tick o s r).cmd.armed = true → s.cmd.armed = true) ∧
    (∀ t : SysState, (arm_motors t).cmd.armed = true) := by
  refine ⟨?_, tick_armed_mono o s r, fun _ => rfl⟩
  intro h
  exact tick_unsafe_disarms o s r ((attitude_alarm_iff _).mpr h)

/-- C1 witness: a state with a 100° roll estimate, armed; after one tick
    the estimate is 98° (beyond 45°) and the tick ends disarmed. -/
theorem C1_safety_disarm_witness :
    (∃ q, (tick zeroLibM (arm_motors tiltState) rawLevel).imu.angles.roll = some q ∧ 45 < |q|) ∧
    (tick zeroLibM (arm_motors tiltState) rawLevel).cmd.armed = false ∧
    (arm_motors control_system_init).cmd.armed = true :=
  ⟨⟨98, by decide, by decide⟩,
    (C1_safety_disarm zeroLibM (arm_motors tiltState) rawLevel).1
      (Or.inl ⟨98, by decide, by decide⟩),
    (C1_safety_disarm zeroLibM (arm_motors tiltState) rawLevel).2.2 control_system_init⟩

/-- C7: a tick entered with `flight_mode ≥ MODE_POSITION_HOLD` and no GPS
    fix ends with `flight_mode = MODE_ALTITUDE_HOLD`; this demotion alone
    does not disarm — if the tick's attitude estimate does not trip the
    tilt/NaN check, the armed flag is exactly what it was at tick entry. -/
theorem C7_gps_loss_demotes (o : LibM) (s : SysState) (r : ImuRaw)
    (h1 : MODE_POSITION_HOLD ≤ s.cmd.flight_mode) (h2 : s.gps.fix_valid = false) :
    (tick o s r).cmd.flight_mode = MODE_ALTITUDE_HOLD ∧
    (attitude_alarm (tick o s r).imu.angles = false →
      (tick o s r).cmd.armed = s.cmd.armed) := by
  have hY : (obstacle_avoidance o (nav_stage o (compute_angles o
      (read_imu_data s r)))).cmd.flight_mode = s.cmd.flight_mode := by simp
  have hYg : (obstacle_avoidance o (nav_stage o (compute_angles o
      (read_imu_data s r)))).gps = s.gps := by simp
  constructor
  · unfold tick
    rw [stabilize_cmd]
    apply safety_check_demotes
    · rw [hY]; exact h1
    · rw [hYg]; exact h2
  · intro hsafe
    rw [tick_imu_eq] at hsafe
    unfold tick
    rw [stabilize_cmd]
    rw [safety_check_safe_keeps _ hsafe]
    rw [obstacle_armed, nav_stage_armed_of_no_fix, compute_angles_cmd, read_imu_data_cmd]
    rw [compute_angles_gps, read_imu_data_gps]
    exact h2

/-- C7 witness: initialized state switched to PositionHold with the
    zero-initialized (absent) GPS fix; one benign tick demotes the mode to
    AltitudeHold and leaves the armed flag (false) unchanged. -/
theorem C7_gps_loss_demotes_witness :
    MODE_POSITION_HOLD ≤ posHoldNoFix.cmd.flight_mode ∧
    posHoldNoFix.gps.fix_valid = false ∧
    (tick zeroLibM posHoldNoFix rawLevel).cmd.flight_mode = MODE_ALTITUDE_HOLD ∧
    (tick zeroLibM posHoldNoFix rawLevel).cmd.armed = posHoldNoFix.cmd.armed :=
  ⟨by decide, by decide,
    (C7_gps_loss_demotes zeroLibM posHoldNoFix rawLevel (by decide) (by decide)).1,
    (C7_gps_loss_demotes zeroLibM posHoldNoFix rawLevel (by decide) (by decide)).2 (by decide)⟩

/-- C6 (amended): `arm_motors` only sets the armed flag; it does not reset
    any PID state.  The roll/pitch/yaw integrals are zero at the first
    arming after initialization because `init_pid` zeroes them and a
    disarmed tick never updates the attitude PIDs — but a disarmed→armed
    transition after a flight re-arms with the pre-disarm integrals intact
    (no reset is performed anywhere). -/
theorem C6_arm_no_reset (o : LibM) (s : SysState) (r : ImuRaw)
    (h : s.cmd.armed = false) :
    (arm_motors s).cmd.armed = true ∧
    (arm_motors s).pid_roll = s.pid_roll ∧
    (arm_motors s).pid_pitch = s.pid_pitch ∧
    (arm_motors s).pid_yaw = s.pid_yaw ∧
    control_system_init.pid_roll.integral = some 0 ∧
    control_system_init.pid_pitch.integral = some 0 ∧
    control_system_init.pid_yaw.integral = some 0 ∧
    (tick o s r).pid_roll = s.pid_roll ∧
    (tick o s r).pid_pitch = s.pid_pitch ∧
    (tick o s r).pid_yaw = s.pid_yaw := by
  have harm : (safety_check (obstacle_avoidance o (nav_stage o (compute_angles o
      (read_imu_data s r))))).cmd.armed = false := by
    apply safety_check_armed_false
    rw [obstacle_armed]
    apply nav_stage_armed_false
    rw [compute_angles_cmd, read_imu_data_cmd]
    exact h
  refine ⟨rfl, rfl, rfl, rfl, rfl, rfl, rfl, ?_, ?_, ?_⟩ <;>
    · unfold tick
      rw [stabilize_disarmed _ harm]
      simp

/-- C6 counterexample: arm from init, fly one benign tick (roll PID
    integral becomes −49/80000 ≠ 0), disarm, re-arm.  At this
    disarmed→armed transition the roll integral still holds its pre-disarm
    value: nothing reset it to zero. -/
theorem C6_counterexample :
    (disarm_motors afterArmedTick).cmd.armed = false ∧
    rearmedState.cmd.armed = true ∧
    rearmedState.pid_roll.integral = some (-49/80000) ∧
    ¬ rearmedState.pid_roll.integral = some 0 := by
  decide

/-- C6 witness: the amended claim instantiated at the initialized state. -/
theorem C6_arm_no_reset_witness :
    control_system_init.cmd.armed = false ∧
    (arm_motors control_system_init).cmd.armed = true ∧
    (tick zeroLibM control_system_init rawLevel).pid_roll = control_system_init.pid_roll :=
  ⟨rfl, (C6_arm_no_reset zeroLibM control_system_init rawLevel rfl).1,
    (C6_arm_no_reset zeroLibM control_system_init rawLevel rfl).2.2.2.2.2.2.2.1⟩

/-- C5 (code bug): on `sAltFail` the climb-rate PID outputs
    `throttle_adjust = -6424803/4000 ≈ -1606.2`; the claim's semantics
    `clamp(1500 + throttle_adjust, MOTOR_MIN, MOTOR_MAX)` yields
    `MOTOR_MIN = 1000`, but the code stores `1500 + (int16_t)throttle_adjust`
    into the `uint16_t` throttle (wrapping to 65430) before clamping and so
    commands full throttle `MOTOR_MAX = 2000`. -/
theorem C5_throttle_wraparound :
    (altitude_hold_controller sAltFail).cmd.throttle = 2000 ∧
    (update_pid sAltFail.pid_velocity_z
        (constrain_float (update_pid sAltFail.pid_altitude sAltFail.cmd.target_altitude
          sAltFail.baro.altitude DT).output (some (-3)) (some 3))
        sAltFail.baro.vertical_speed DT).output = some (-6424803/4000) ∧
    f_to_u16 (constrain_float (fadd (some 1500) (some (-6424803/4000)))
        (some MOTOR_MIN) (some MOTOR_MAX)) = 1000 := by
  decide

/-- The effect of one active `position_hold_controller` call on the outer
    north position PID. -/
theorem position_hold_upd_pos_n (o : LibM) (t : SysState)
    (h : ¬ (t.cmd.flight_mode < MODE_POSITION_HOLD ∨ t.gps.fix_valid = false)) :
    (position_hold_controller o t).pid_pos_n
      = update_pid t.pid_pos_n (some 0) (err_north o t.gps.position t.cmd.target_position) DT := by
  unfold position_hold_controller err_north
  rw [if_neg h]

/-- The effect of one active `position_hold_controller` call on the outer
    east position PID. -/
theorem position_hold_upd_pos_e (o : LibM) (t : SysState)
    (h : ¬ (t.cmd.flight_mode < MODE_POSITION_HOLD ∨ t.gps.fix_valid = false)) :
    (position_hold_controller o t).pid_pos_e
      = update_pid t.pid_pos_e (some 0) (err_east o t.gps.position t.cmd.target_position) DT := by
  unfold position_hold_controller err_east
  rw [if_neg h]

/-- The effect of one active `position_hold_controller` call on the inner
    north velocity PID. -/
theorem position_hold_upd_vel_n (o : LibM) (t : SysState)
    (h : ¬ (t.cmd.flight_mode < MODE_POSITION_HOLD ∨ t.gps.fix_valid = false)) :
    (position_hold_controller o t).pid_vel_n
      = update_pid t.pid_vel_n
          (constrain_float (update_pid t.pid_pos_n (some 0)
            (err_north o t.gps.position t.cmd.target_position) DT).output (some (-5)) (some 5))
          (vel_north o t.gps) DT := by
  unfold position_hold_controller err_north vel_north
  rw [if_neg h]

/-- The effect of one active `position_hold_controller` call on the inner
    east velocity PID. -/
theorem position_hold_upd_vel_e (o : LibM) (t : SysState)
    (h : ¬ (t.cmd.flight_mode < MODE_POSITION_HOLD ∨ t.gps.fix_valid = false)) :
    (position_hold_controller o t).pid_vel_e
      = update_pid t.pid_vel_e
          (constrain_float (update_pid t.pid_pos_e (some 0)
            (err_east o t.gps.position t.cmd.target_position) DT).output (some (-5)) (some 5))
          (vel_east o t.gps) DT := by
  unfold position_hold_controller err_east vel_east
  rw [if_neg h]

/-- The effect of one `return_to_home_controller` call when RTH is active,
    the fix is valid and the land condition does not hold: the four
    position/velocity PIDs receive exactly one `update_pid` call each, with
    the home position as target, and the target position is set to home. -/
theorem rth_pids (o : LibM) (s : SysState)
    (hmode : s.cmd.flight_mode = MODE_RTH) (hfix : s.gps.fix_valid = true)
    (hland : (flt (get_distance_meters o s.gps.position s.cmd.home_position) (some 2) &&
              flt s.baro.altitude (some 1)) = false) :
    (return_to_home_controller o s).pid_pos_n
      = update_pid s.pid_pos_n (some 0) (err_north o s.gps.position s.cmd.home_position) DT ∧
    (return_to_home_controller o s).pid_pos_e
      = update_pid s.pid_pos_e (some 0) (err_east o s.gps.position s.cmd.home_position) DT ∧
    (return_to_home_controller o s).pid_vel_n
      = update_pid s.pid_vel_n
          (constrain_float (update_pid s.pid_pos_n (some 0)
            (err_north o s.gps.position s.cmd.home_position) DT).output (some (-5)) (some 5))
          (vel_north o s.gps) DT ∧
    (return_to_home_controller o s).pid_vel_e
      = update_pid s.pid_vel_e
          (constrain_float (update_pid s.pid_pos_e (some 0)
            (err_east o s.gps.position s.cmd.home_position) DT).output (some (-5)) (some 5))
          (vel_east o s.gps) DT ∧
    (return_to_home_controller o s).cmd.target_position = s.cmd.home_position := by
  unfold return_to_home_controller
  rw [if_neg (by simp [hmode, hfix])]
  dsimp only
  rw [if_neg (by simp [hland])]
  split_ifs with hclimb hdesc hdesc <;>
    refine ⟨?_, ?_, ?_, ?_, ?_⟩ <;>
    simp [position_hold_upd_pos_n, position_hold_upd_pos_e,
      position_hold_upd_vel_n, position_hold_upd_vel_e, hmode, hfix,
      MODE_POSITION_HOLD, MODE_RTH]

/-- In an RTH iteration with a valid fix and no land condition, the
    navigation stages update each position/velocity PID exactly twice: once
    inside `return_to_home_controller` and once in the loop's
    `mode ≥ MODE_POSITION_HOLD` call, both against the home position. -/
theorem nav_stage_rth_pids (o : LibM) (s : SysState)
    (hmode : s.cmd.flight_mode = MODE_RTH) (hfix : s.gps.fix_valid = true)
    (hland : (flt (get_distance_meters o s.gps.position s.cmd.home_position) (some 2) &&
              flt s.baro.altitude (some 1)) = false) :
    (nav_stage o s).pid_pos_n
      = update_pid (update_pid s.pid_pos_n (some 0)
          (err_north o s.gps.position s.cmd.home_position) DT) (some 0)
          (err_north o s.gps.position s.cmd.home_position) DT ∧
    (nav_stage o s).pid_pos_e
      = update_pid (update_pid s.pid_pos_e (some 0)
          (err_east o s.gps.position s.cmd.home_position) DT) (some 0)
          (err_east o s.gps.position s.cmd.home_position) DT ∧
    (nav_stage o s).pid_vel_n
      = update_pid (update_pid s.pid_vel_n
          (constrain_float (update_pid s.pid_pos_n (some 0)
            (err_north o s.gps.position s.cmd.home_position) DT).output (some (-5)) (some 5))
          (vel_north o s.gps) DT)
          (constrain_float (update_pid (update_pid s.pid_pos_n (some 0)
            (err_north o s.gps.position s.cmd.home_position) DT) (some 0)
            (err_north o s.gps.position s.cmd.home_position) DT).output (some (-5)) (some 5))
          (vel_north o s.gps) DT ∧
    (nav_stage o s).pid_vel_e
      = update_pid (update_pid s.pid_vel_e
          (constrain_float (update_pid s.pid_pos_e (some 0)
            (err_east o s.gps.position s.cmd.home_position) DT).output (some (-5)) (some 5))
          (vel_east o s.gps) DT)
          (constrain_float (update_pid (update_pid s.pid_pos_e (some 0)
            (err_east o s.gps.position s.cmd.home_position) DT) (some 0)
            (err_east o s.gps.position s.cmd.home_position) DT).output (some (-5)) (some 5))
          (vel_east o s.gps) DT := by
  obtain ⟨hp1, hp2, hp3, hp4, htgt⟩ := rth_pids o s hmode hfix hland
  have hc1 : ¬ (s.cmd.flight_mode = MODE_ALTITUDE_HOLD ∨
      s.cmd.flight_mode = MODE_POSITION_HOLD ∨ s.cmd.flight_mode = MODE_AUTO) := by
    rw [hmode]; decide
  have hc2 : MODE_POSITION_HOLD
      ≤ (altitude_hold_controller (return_to_home_controller o s)).cmd.flight_mode := by
    rw [altitude_hold_mode, rth_mode, hmode]; decide
  have hnav : nav_stage o s
      = position_hold_controller o (altitude_hold_controller (return_to_home_controller o s)) := by
    unfold nav_stage
    dsimp only
    rw [if_neg hc1, if_pos hmode, if_pos hc2]
  have hXmode : (altitude_hold_controller (return_to_home_controller o s)).cmd.flight_mode
      = MODE_RTH := by rw [altitude_hold_mode, rth_mode, hmode]
  have hXgps : (altitude_hold_controller (return_to_home_controller o s)).gps = s.gps := by
    rw [altitude_hold_gps, rth_gps]
  have hXtgt : (altitude_hold_controller (return_to_home_controller o s)).cmd.target_position
      = s.cmd.home_position := by rw [altitude_hold_target_position]; exact htgt
  have hXp1 : (altitude_hold_controller (return_to_home_controller o s)).pid_pos_n
      = update_pid s.pid_pos_n (some 0) (err_north o s.gps.position s.cmd.home_position) DT := by
    rw [altitude_hold_pid_pos_n]; exact hp1
  have hXp2 : (altitude_hold_controller (return_to_home_controller o s)).pid_pos_e
      = update_pid s.pid_pos_e (some 0) (err_east o s.gps.position s.cmd.home_position) DT := by
    rw [altitude_hold_pid_pos_e]; exact hp2
  have hXp3 : (altitude_hold_controller (return_to_home_controller o s)).pid_vel_n
      = update_pid s.pid_vel_n
          (constrain_float (update_pid s.pid_pos_n (some 0)
            (err_north o s.gps.position s.cmd.home_position) DT).output (some (-5)) (some 5))
          (vel_north o s.gps) DT := by
    rw [altitude_hold_pid_vel_n]; exact hp3
  have hXp4 : (altitude_hold_controller (return_to_home_controller o s)).pid_vel_e
      = update_pid s.pid_vel_e
          (constrain_float (update_pid s.pid_pos_e (some 0)
            (err_east o s.gps.position s.cmd.home_position) DT).output (some (-5)) (some 5))
          (vel_east o s.gps) DT := by
    rw [altitude_hold_pid_vel_e]; exact hp4
  have hcond : ¬ ((altitude_hold_controller (return_to_home_controller o s)).cmd.flight_mode
      < MODE_POSITION_HOLD ∨
      (altitude_hold_controller (return_to_home_controller o s)).gps.fix_valid = false) := by
    rw [hXmode, hXgps, hfix]
    decide
  refine ⟨?_, ?_, ?_, ?_⟩
  · rw [hnav, position_hold_upd_pos_n o _ hcond, hXp1, hXgps, hXtgt]
  · rw [hnav, position_hold_upd_pos_e o _ hcond, hXp2, hXgps, hXtgt]
  · rw [hnav, position_hold_upd_vel_n o _ hcond, hXp3, hXp1, hXgps, hXtgt]
  · rw [hnav, position_hold_upd_vel_e o _ hcond, hXp4, hXp2, hXgps, hXtgt]

/-- C10: in a ReturnToHome tick with a valid GPS fix where the land
    condition (distance to home < 2 m and altitude < 1 m) does not hold,
    each of the four position/velocity PIDs receives exactly two
    `update_pid` calls — one via `return_to_home_controller`'s internal
    `position_hold_controller` call and one via the loop's
    `mode ≥ MODE_POSITION_HOLD` call — both against the home position, so
    the tick-end PID states are the double `update_pid` iterates (twice the
    per-tick advance of PositionHold mode). -/
theorem C10_rth_double_update (o : LibM) (s : SysState) (r : ImuRaw)
    (h1 : s.cmd.flight_mode = MODE_RTH) (h2 : s.gps.fix_valid = true)
    (h3 : (flt (get_distance_meters o s.gps.position s.cmd.home_position) (some 2) &&
           flt s.baro.altitude (some 1)) = false) :
    (tick o s r).pid_pos_n
      = update_pid (update_pid s.pid_pos_n (some 0)
          (err_north o s.gps.position s.cmd.home_position) DT) (some 0)
          (err_north o s.gps.position s.cmd.home_position) DT ∧
    (tick o s r).pid_pos_e
      = update_pid (update_pid s.pid_pos_e (some 0)
          (err_east o s.gps.position s.cmd.home_position) DT) (some 0)
          (err_east o s.gps.position s.cmd.home_position) DT ∧
    (tick o s r).pid_vel_n
      = update_pid (update_pid s.pid_vel_n
          (constrain_float (update_pid s.pid_pos_n (some 0)
            (err_north o s.gps.position s.cmd.home_position) DT).output (some (-5)) (some 5))
          (vel_north o s.gps) DT)
          (constrain_float (update_pid (update_pid s.pid_pos_n (some 0)
            (err_north o s.gps.position s.cmd.home_position) DT) (some 0)
            (err_north o s.gps.position s.cmd.home_position) DT).output (some (-5)) (some 5))
          (vel_north o s.gps) DT ∧
    (tick o s r).pid_vel_e
      = update_pid (update_pid s.pid_vel_e
          (constrain_float (update_pid s.pid_pos_e (some 0)
            (err_east o s.gps.position s.cmd.home_position) DT).output (some (-5)) (some 5))
          (vel_east o s.gps) DT)
          (constrain_float (update_pid (update_pid s.pid_pos_e (some 0)
            (err_east o s.gps.position s.cmd.home_position) DT) (some 0)
            (err_east o s.gps.position s.cmd.home_position) DT).output (some (-5)) (some 5))
          (vel_east o s.gps) DT := by
  have hs1c : (compute_angles o (read_imu_data s r)).cmd = s.cmd := by simp
  have hs1g : (compute_angles o (read_imu_data s r)).gps = s.gps := by simp
  have hs1b : (compute_angles o (read_imu_data s r)).baro = s.baro := by simp
  have h := nav_stage_rth_pids o (compute_angles o (read_imu_data s r))
    (by rw [hs1c]; exact h1) (by rw [hs1g]; exact h2)
    (by rw [hs1g, hs1c, hs1b]; exact h3)
  simp only [hs1c, hs1g, compute_angles_pid_pos_n, read_imu_data_pid_pos_n,
    compute_angles_pid_pos_e, read_imu_data_pid_pos_e,
    compute_angles_pid_vel_n, read_imu_data_pid_vel_n,
    compute_angles_pid_vel_e, read_imu_data_pid_vel_e] at h
  obtain ⟨hn1, hn2, hn3, hn4⟩ := h
  refine ⟨?_, ?_, ?_, ?_⟩
  · have ht : (tick o s r).pid_pos_n
        = (nav_stage o (compute_angles o (read_imu_data s r))).pid_pos_n := by
      unfold tick
      rw [stabilize_pid_pos_n, safety_check_pid_pos_n, obstacle_pid_pos_n]
    rw [ht]; exact hn1
  · have ht : (tick o s r).pid_pos_e
        = (nav_stage o (compute_angles o (read_imu_data s r))).pid_pos_e := by
      unfold tick
      rw [stabilize_pid_pos_e, safety_check_pid_pos_e, obstacle_pid_pos_e]
    rw [ht]; exact hn2
  · have ht : (tick o s r).pid_vel_n
        = (nav_stage o (compute_angles o (read_imu_data s r))).pid_vel_n := by
      unfold tick
      rw [stabilize_pid_vel_n, safety_check_pid_vel_n, obstacle_pid_vel_n]
    rw [ht]; exact hn3
  · have ht : (tick o s r).pid_vel_e
        = (nav_stage o (compute_angles o (read_imu_data s r))).pid_vel_e := by
      unfold tick
      rw [stabilize_pid_vel_e, safety_check_pid_vel_e, obstacle_pid_vel_e]
    rw [ht]; exact hn4

/-- C10 witness: the RTH state `rthAirborne` (valid fix, 5 m altitude)
    satisfies the hypotheses, and one tick leaves the north position PID
    doubly updated. -/
theorem C10_rth_double_update_witness :
    rthAirborne.cmd.flight_mode = MODE_RTH ∧
    rthAirborne.gps.fix_valid = true ∧
    (flt (get_distance_meters zeroLibM rthAirborne.gps.position
        rthAirborne.cmd.home_position) (some 2) &&
      flt rthAirborne.baro.altitude (some 1)) = false ∧
    (tick zeroLibM rthAirborne rawLevel).pid_pos_n
      = update_pid (update_pid rthAirborne.pid_pos_n (some 0)
          (err_north zeroLibM rthAirborne.gps.position rthAirborne.cmd.home_position) DT)
          (some 0)
          (err_north zeroLibM rthAirborne.gps.position rthAirborne.cmd.home_position) DT :=
  ⟨by decide, by decide, by decide,
    (C10_rth_double_update zeroLibM rthAirborne rawLevel
      (by decide) (by decide) (by decide)).1⟩
